import Mathlib

/-!
Verification development for the lens.-backend photography-portfolio API.

Each definition is a shallow embedding of a function of the source tree,
with the file and lines it is translated from noted in a comment.  The
repository carries two divergent Photo schema variants (a legacy
non-moderated one and a moderation-enabled one); following section 9 of
the specification, the moderation-enabled, R2-backed variant is taken as
canonical wherever the two disagree, and divergences are noted in place.
-/

namespace Lens

/-! ## Generic list helpers used by the embeddings -/

/-- Does the list start with the given pattern (character-wise)? -/
def startsWithChars : List Char → List Char → Bool
  | [], _ => true
  | _ :: _, [] => false
  | p :: ps, c :: cs => p == c && startsWithChars ps cs

/-- Does the pattern occur as a contiguous run inside the list? -/
def containsChars (s pat : List Char) : Bool :=
  startsWithChars pat s ||
    match s with
    | [] => false
    | _ :: rest => containsChars rest pat

/-- Case-insensitive substring test: the embedding of the regex
test new RegExp(query, i-flag) used by the photo search filters
(src/unnamed/part_003 lines 1270-1274 and src/unnamed/part_000 lines 71-75). -/
def regexTestCI (pat s : String) : Bool :=
  containsChars s.toLower.toList pat.toLower.toList

/-! ## Photo model and the public listing (claims C1, C10)

Photo schema: src/unnamed/part_003 lines 870-1078 (moderation-enabled
variant).  Only the fields consulted by the listing, search and access
logic are carried. -/

inductive ApprovalStatus
  | pending
  | approved
  | rejected
deriving DecidableEq, Repr

structure Photo where
  id : Nat
  user : Nat
  portfolio : Nat
  title : String
  description : String
  tags : List String
  category : String
  isPublic : Bool
  approvalStatus : ApprovalStatus
deriving DecidableEq, Repr

/-- The query options the GET /api/photos route passes to Photo.search and
to Photo.countDocuments (src/unnamed/part_000 lines 21-81).  The route
always passes isPublic = true, so that flag is not a field here. -/
structure SearchOpts where
  query : Option String
  category : Option String
  tags : List String
  user : Option Nat
  portfolio : Option Nat
deriving Repr

/-- Free-text clause shared by both filters: title, description or some tag
matches the query case-insensitively (the $or block). -/
def textMatch (q : String) (p : Photo) : Bool :=
  regexTestCI q p.title || regexTestCI q p.description ||
    p.tags.any (fun t => regexTestCI q t)

/-- The filter built by photoSchema.statics.search
(src/unnamed/part_003 lines 1252-1299) with isPublic = true as passed by
the route; when isPublic is set the filter also requires
approvalStatus = approved. -/
def searchFilter (o : SearchOpts) (p : Photo) : Bool :=
  p.isPublic &&
  p.approvalStatus == ApprovalStatus.approved &&
  (match o.query with
   | none => true
   | some q => textMatch q p) &&
  (match o.category with
   | none => true
   | some c => p.category == c) &&
  (o.tags.isEmpty || p.tags.any (fun t => o.tags.contains t)) &&
  (match o.user with
   | none => true
   | some u => p.user == u) &&
  (match o.portfolio with
   | none => true
   | some pf => p.portfolio == pf)

/-- The filter the route hands to Photo.countDocuments to compute
pagination.total (src/unnamed/part_000 lines 67-81). -/
def countFilter (o : SearchOpts) (p : Photo) : Bool :=
  p.isPublic &&
  p.approvalStatus == ApprovalStatus.approved &&
  (match o.query with
   | none => true
   | some q => textMatch q p) &&
  (match o.category with
   | none => true
   | some c => p.category == c) &&
  (o.tags.isEmpty || p.tags.any (fun t => o.tags.contains t)) &&
  (match o.user with
   | none => true
   | some u => p.user == u) &&
  (match o.portfolio with
   | none => true
   | some pf => p.portfolio == pf)

/-- GET /api/photos: the page of photos returned (skip/limit over the
matching set; the sort only permutes the matching set and is immaterial to
membership and count) together with pagination.total
(src/unnamed/part_000 lines 19-98). -/
def listPhotos (db : List Photo) (o : SearchOpts) (skip limit : Nat) :
    List Photo × Nat :=
  (((db.filter (searchFilter o)).drop skip).take limit,
   (db.filter (countFilter o)).length)

/-- photoSchema.methods.canAccess (src/unnamed/part_003 lines 1190-1196):
public photos are accessible to anyone; private photos only to the owner.
The requester is none for an anonymous request. -/
def canAccess (p : Photo) (requester : Option Nat) : Bool :=
  p.isPublic ||
    match requester with
    | none => false
    | some uid => uid == p.user

inductive FetchResult
  | ok (p : Photo)
  | notFound
  | forbidden
deriving DecidableEq, Repr

/-- GET /api/photos/:id (src/unnamed/part_000 lines 333-370): 404 when the
photo is missing, 403 when canAccess denies, otherwise the photo. -/
def getPhotoById (db : List Photo) (id : Nat) (requester : Option Nat) :
    FetchResult :=
  match db.find? (fun p => p.id == id) with
  | none => FetchResult.notFound
  | some p => if canAccess p requester then FetchResult.ok p else FetchResult.forbidden

/-- A freshly uploaded photo: POST /api/upload/photo defaults isPublic to
true in the request body (src/unnamed/part_001 line 55) while the schema
defaults approvalStatus to pending (src/unnamed/part_003 lines 963-967),
so this state is reachable for every default upload. -/
def pendingPublicPhoto : Photo :=
  { id := 1, user := 7, portfolio := 3, title := "sunset", description := "",
    tags := [], category := "other", isPublic := true,
    approvalStatus := ApprovalStatus.pending }

/-- A private photo (isPublic false), used as a concrete instance. -/
def privatePhoto : Photo :=
  { id := 2, user := 7, portfolio := 3, title := "drafts", description := "",
    tags := [], category := "other", isPublic := false,
    approvalStatus := ApprovalStatus.approved }

/-- The listing options of a plain GET /api/photos request with no search
parameters. -/
def emptySearch : SearchOpts :=
  { query := none, category := none, tags := [], user := none,
    portfolio := none }

/-! ## Portfolio model and the default-flag invariant (claims C2, C4)

Portfolio schema: src/src/models/User.js lines 236-408 (the portfolio
schema shares that file).  Only the fields the default-flag logic touches
are carried. -/

structure Portfolio where
  id : Nat
  user : Nat
  isDefault : Bool
deriving DecidableEq, Repr

/-- The pre-save sibling-clearing hook (src/src/models/User.js lines
454-466): when isDefault was modified and is now true, updateMany sets
isDefault to false on every other portfolio of the same user. -/
def clearSiblingDefaults (state : List Portfolio) (p : Portfolio) :
    List Portfolio :=
  state.map (fun q =>
    if q.user == p.user && q.id != p.id then { q with isDefault := false } else q)

/-- Persisting a document: replace the stored document with the same id, or
append it when new. -/
def saveDoc (state : List Portfolio) (p : Portfolio) : List Portfolio :=
  if state.any (fun q => q.id == p.id) then
    state.map (fun q => if q.id == p.id then p else q)
  else state ++ [p]

/-- Document save path: the pre-save hooks run, then the document is
written.  isDefaultModified mirrors Mongoose isModified, true when the
isDefault path was assigned a value differing from the stored one (or set
on a new document). -/
def portfolioSave (state : List Portfolio) (p : Portfolio)
    (isDefaultModified : Bool) : List Portfolio :=
  saveDoc
    (if isDefaultModified && p.isDefault then clearSiblingDefaults state p
     else state) p

/-- POST /api/portfolios and the registration auto-create both go through
Portfolio.create, which runs the save hooks (src/unnamed/part_002 lines
324-372, src/src/routes/auth.js lines 41-48); on a new document every
assigned path counts as modified. -/
def createPortfolio (state : List Portfolio) (p : Portfolio) :
    List Portfolio :=
  portfolioSave state p p.isDefault

/-- PUT /api/portfolios/:id/default (src/unnamed/part_002 lines 457-492):
after the ownership check the route assigns isDefault := true and calls
save, so the sibling-clearing hook runs; the path counts as modified
exactly when the stored flag was false. -/
def setDefaultRoute (state : List Portfolio) (id uid : Nat) :
    List Portfolio :=
  match state.find? (fun q => q.id == id) with
  | none => state
  | some p =>
    if p.user == uid then
      portfolioSave state { p with isDefault := true } (!p.isDefault)
    else state

/-- The update document of the generic PUT /api/portfolios/:id.  The
route forwards req.body verbatim; validatePortfolioUpdate
(src/src/middleware/validation.js lines 157-196) checks only the listed
fields and strips nothing, so isDefault passes through.  Fields other than
isDefault cannot affect the default flag and are omitted. -/
structure PortfolioUpdate where
  isDefault : Option Bool
deriving Repr

def applyPortfolioUpdate (p : Portfolio) (u : PortfolioUpdate) : Portfolio :=
  match u.isDefault with
  | none => p
  | some b => { p with isDefault := b }

/-- PUT /api/portfolios/:id (src/unnamed/part_002 lines 377-417):
ownership check, then Portfolio.findByIdAndUpdate with req.body.
findByIdAndUpdate issues a query-level update and does not run the
document pre-save hooks, so no sibling clearing happens here. -/
def updatePortfolioRoute (state : List Portfolio) (id uid : Nat)
    (u : PortfolioUpdate) : List Portfolio :=
  match state.find? (fun q => q.id == id) with
  | none => state
  | some p =>
    if p.user == uid then
      state.map (fun q => if q.id == id then applyPortfolioUpdate q u else q)
    else state

/-- Number of portfolios of a user flagged default. -/
def defaultCount (state : List Portfolio) (uid : Nat) : Nat :=
  (state.filter (fun q => q.user == uid && q.isDefault)).length

/-! ## Refresh-token rotation (claim C3)

User refresh-token records: src/src/models/User.js lines 115-122; the
token methods: lines 182-199; the route: src/src/routes/auth.js lines
194-247. -/

structure AuthUser where
  id : Nat
  refreshTokens : List String
deriving DecidableEq, Repr

/-- userSchema.methods.removeRefreshToken (src/src/models/User.js lines
196-199): filter out every record holding the token, then save. -/
def removeRefreshToken (u : AuthUser) (t : String) : AuthUser :=
  { u with refreshTokens := u.refreshTokens.filter (fun rt => rt != t) }

/-- userSchema.methods.generateRefreshToken (src/src/models/User.js lines
182-193): signs a new token and pushes its record onto the document. -/
def generateRefreshToken (u : AuthUser) (newTok : String) : AuthUser :=
  { u with refreshTokens := u.refreshTokens ++ [newTok] }

inductive RefreshResult
  | refreshed
  | unauthorized
  | serverError
deriving DecidableEq, Repr

/-- POST /api/auth/refresh (src/src/routes/auth.js lines 194-247).
decode models jwt.verify against the refresh secret (none when the
signature or expiry check throws, which the outer catch forwards to the
error handler).  newTok is the token generateRefreshToken signs during
this call.  On success the route pushes the new token (inside
generateRefreshToken), removes the presented token, pushes the new token
once more, and saves. -/
def refreshRoute (users : List AuthUser) (decode : String → Option Nat)
    (tok newTok : String) : RefreshResult × List AuthUser :=
  match decode tok with
  | none => (RefreshResult.serverError, users)
  | some uid =>
    match users.find? (fun u => u.id == uid) with
    | none => (RefreshResult.unauthorized, users)
    | some u =>
      if u.refreshTokens.any (fun rt => rt == tok) then
        let u1 := generateRefreshToken u newTok
        let u2 := removeRefreshToken u1 tok
        let u3 := { u2 with refreshTokens := u2.refreshTokens ++ [newTok] }
        (RefreshResult.refreshed,
         users.map (fun v => if v.id == u.id then u3 else v))
      else (RefreshResult.unauthorized, users)

/-! ## Registration (claim C4)

Route: src/src/routes/auth.js lines 14-85.  User schema: the declared
paths of src/src/models/User.js lines 5-122. -/

structure RegUser where
  id : Nat
  username : String
  email : String
deriving DecidableEq, Repr

/-- The top-level paths declared by userSchema
(src/src/models/User.js lines 5-122).  No portfolios path is declared. -/
def userSchemaPaths : List String :=
  ["username", "email", "password", "firstName", "lastName", "bio",
   "avatar", "website", "location", "isVerified", "isActive",
   "subscription", "preferences", "stats", "lastLogin", "refreshTokens"]

inductive RegisterResult
  | conflict (msg : String)
  | created
  | serverError
deriving DecidableEq, Repr

structure RegState where
  users : List RegUser
  portfolios : List Portfolio
deriving DecidableEq, Repr

/-- POST /api/auth/register (src/src/routes/auth.js lines 14-85): reject a
duplicate email or username with an identifying 400; otherwise create the
user, create the default portfolio, then execute
user.portfolios.push(defaultPortfolio id) on line 51.  The schema declares
no portfolios path, so the document exposes undefined there and the push
throws a TypeError, which the catch forwards as a 500 after the user and
portfolio documents were already written. -/
def registerRoute (st : RegState) (username email : String)
    (newUserId newPortfolioId : Nat) : RegisterResult × RegState :=
  match st.users.find? (fun u => u.email == email || u.username == username) with
  | some existing =>
    (RegisterResult.conflict
      (if existing.email == email then "Email already exists"
       else "Username already exists"), st)
  | none =>
    let user : RegUser := { id := newUserId, username := username, email := email }
    let dp : Portfolio := { id := newPortfolioId, user := newUserId, isDefault := true }
    let st2 : RegState :=
      { users := st.users ++ [user],
        portfolios := createPortfolio st.portfolios dp }
    if userSchemaPaths.contains "portfolios" then (RegisterResult.created, st2)
    else (RegisterResult.serverError, st2)

/-! ## Admin role management and account deletion (claim C5)

Routes: src/unnamed/part_003 (admin router) and src/src/routes/auth.js
lines 397-430.  The role field is the one the admin routes and the
specification data model use; requester authentication (protect,
requireSuperAdmin, canManageAdmins) is assumed to have passed, since the
claim is about the guards inside the handlers. -/

structure AdminUser where
  id : Nat
  role : String
  isActive : Bool
deriving DecidableEq, Repr

/-- User.countDocuments with filter role = super_admin
(src/unnamed/part_003 line 562). -/
def superAdminCount (users : List AdminUser) : Nat :=
  (users.filter (fun u => u.role == "super_admin")).length

/-- User.countDocuments with filter role = super_admin and isActive = true
(src/unnamed/part_003 line 611). -/
def activeSuperAdminCount (users : List AdminUser) : Nat :=
  (users.filter (fun u => u.role == "super_admin" && u.isActive)).length

inductive AdminResult
  | ok
  | rejected
  | notFound
deriving DecidableEq, Repr

/-- PUT /api/admin/users/:id/role (src/unnamed/part_003 lines 552-594):
when demoting (requested role is not super_admin) and at most one
super_admin exists, reject; otherwise findByIdAndUpdate the role, 404 when
the user is missing. -/
def updateRoleRoute (users : List AdminUser) (id : Nat) (role : String) :
    AdminResult × List AdminUser :=
  if role != "super_admin" && superAdminCount users ≤ 1 then
    (AdminResult.rejected, users)
  else
    match users.find? (fun u => u.id == id) with
    | none => (AdminResult.notFound, users)
    | some _ =>
      (AdminResult.ok,
       users.map (fun u => if u.id == id then { u with role := role } else u))

/-- DELETE /api/admin/users/:id (src/unnamed/part_003 lines 436-462):
reject when the target is a super_admin, otherwise delete the user and
their photos (a missing target still answers ok; findByIdAndDelete is a
no-op then). -/
def deleteUserRoute (users : List AdminUser) (id : Nat) :
    AdminResult × List AdminUser :=
  match users.find? (fun u => u.id == id) with
  | some u =>
    if u.role == "super_admin" then (AdminResult.rejected, users)
    else (AdminResult.ok, users.filter (fun v => v.id != id))
  | none => (AdminResult.ok, users.filter (fun v => v.id != id))

/-- PUT /api/admin/users/:id/status (src/unnamed/part_003 lines 599-644):
when deactivating a super_admin while at most one active super_admin
exists, reject; otherwise findByIdAndUpdate isActive, 404 when missing. -/
def setStatusRoute (users : List AdminUser) (id : Nat) (isActive : Bool) :
    AdminResult × List AdminUser :=
  if !isActive &&
      (match users.find? (fun u => u.id == id) with
       | some u => u.role == "super_admin" && activeSuperAdminCount users ≤ 1
       | none => false) then
    (AdminResult.rejected, users)
  else
    match users.find? (fun u => u.id == id) with
    | none => (AdminResult.notFound, users)
    | some _ =>
      (AdminResult.ok,
       users.map (fun u =>
         if u.id == id then { u with isActive := isActive } else u))

/-- DELETE /api/auth/me (src/src/routes/auth.js lines 397-430): after the
password check the account is deleted unconditionally; the handler
contains no role guard of any kind. -/
def selfDeleteRoute (users : List AdminUser) (uid : Nat)
    (passwordValid : Bool) : AdminResult × List AdminUser :=
  if passwordValid then (AdminResult.ok, users.filter (fun v => v.id != uid))
  else (AdminResult.rejected, users)

/-! ## Upload quota (claim C6)

userSchema.methods.canUploadPhoto: src/src/models/User.js lines 201-209;
checkSubscriptionLimits: src/src/middleware/validation.js lines 582-633;
the route applies the middleware and then the method
(src/unnamed/part_001 lines 46 and 81-87). -/

inductive Plan
  | free
  | pro
deriving DecidableEq, Repr

structure QuotaUser where
  plan : Plan
  totalPhotos : Nat
deriving DecidableEq, Repr

/-- The photo limits both checks hard-code: free 30, pro Infinity
(none models Infinity). -/
def planPhotoLimit : Plan → Option Nat
  | Plan.free => some 30
  | Plan.pro => none

/-- userSchema.methods.canUploadPhoto: stats.totalPhotos strictly below
the plan limit (any count is below Infinity). -/
def canUploadPhoto (u : QuotaUser) : Bool :=
  match planPhotoLimit u.plan with
  | some l => u.totalPhotos < l
  | none => true

/-- checkSubscriptionLimits with limitType photos: reject (403) when
stats.totalPhotos has reached the plan limit; the Infinity comparison is
never true. -/
def checkSubscriptionLimitsPhotos (u : QuotaUser) : Bool :=
  match planPhotoLimit u.plan with
  | some l => l ≤ u.totalPhotos
  | none => false

inductive UploadGate
  | quotaRejected
  | allowed
deriving DecidableEq, Repr

/-- The quota gate of POST /api/upload/photo: the middleware runs first,
then the in-route canUploadPhoto check; either rejection is the quota
error of the claim. -/
def uploadQuotaGate (u : QuotaUser) : UploadGate :=
  if checkSubscriptionLimitsPhotos u then UploadGate.quotaRejected
  else if !canUploadPhoto u then UploadGate.quotaRejected
  else UploadGate.allowed

/-! ## Image pipeline (claims C7, C8)

processAndUploadImage and extractDominantColors:
src/src/utils/r2.js lines 156-289. -/

structure ImageDims where
  width : Nat
  height : Nat
deriving DecidableEq, Repr

/-- sharp resize with fit inside and withoutEnlargement: scale down to fit
the bounding box preserving aspect ratio, never scale up (rounding to the
nearest integer, at least 1). -/
def fitInside (w h maxW maxH : Nat) : Nat × Nat :=
  if w ≤ maxW && h ≤ maxH then (w, h)
  else if w * maxH ≤ maxW * h then
    (max 1 ((w * maxH + h / 2) / h), maxH)
  else
    (maxW, max 1 ((h * maxW + w / 2) / w))

/-- The options POST /api/upload/photo passes
(src/unnamed/part_001 lines 90-100); the field defaults are the defaults
destructured in processAndUploadImage itself (src/src/utils/r2.js lines
157-166). -/
structure ProcessOpts where
  maxWidth : Nat := 2048
  maxHeight : Nat := 2048
  generateThumbnail : Bool := true
  thumbnailSize : Nat := 300
  extractColors : Bool := true
deriving DecidableEq, Repr

/-- Outcome of each fallible stage of one pipeline run (sharp calls and
uploadToR2 calls); true means the library call succeeded. -/
structure StageOracle where
  metadataOk : Bool
  resizeOk : Bool
  mainUploadOk : Bool
  thumbResizeOk : Bool
  thumbUploadOk : Bool
  colorOk : Bool
deriving DecidableEq, Repr

/-- extractDominantColors (src/src/utils/r2.js lines 259-289): the top-5
histogram over the raw pixels, abstracted as the palette argument; the
catch branch swallows any failure and returns the empty list, so
extraction never aborts the pipeline. -/
def extractDominantColors (colorOk : Bool)
    (palette : List (String × Nat)) : List (String × Nat) :=
  if colorOk then palette else []

inductive ProcessingError
  | metadataFailed
  | resizeFailed
  | uploadFailed
  | thumbnailResizeFailed
  | thumbnailUploadFailed
  | thumbnailBufferUndefined
deriving DecidableEq, Repr

structure UploadedImage where
  key : String
  width : Nat
  height : Nat
deriving DecidableEq, Repr

structure PipelineOut where
  mainImage : UploadedImage
  thumbnail : Option UploadedImage
  colorPalette : List (String × Nat)
deriving DecidableEq, Repr

/-- processAndUploadImage (src/src/utils/r2.js lines 156-256).  Returns
the result together with the list of keys written to storage during the
run; a thrown stage aborts without removing anything already written.
Two source facts are reflected exactly as written there:
the returned mainImage.width and mainImage.height are metadata.width and
metadata.height of the ORIGINAL buffer (lines 231-232), not the resized
dimensions; and in the generateThumbnail branch the return object reads
thumbnailBuffer.length (line 241) while thumbnailBuffer is const-declared
inside the if-block at line 202, so the return statement itself throws a
ReferenceError after both uploads succeeded. -/
def processAndUploadImage (img : ImageDims) (opts : ProcessOpts)
    (o : StageOracle) (palette : List (String × Nat))
    (mainKey thumbKey : String) :
    Except ProcessingError PipelineOut × List String :=
  if !o.metadataOk then (Except.error ProcessingError.metadataFailed, [])
  else if !o.resizeOk then (Except.error ProcessingError.resizeFailed, [])
  else if !o.mainUploadOk then (Except.error ProcessingError.uploadFailed, [])
  else if opts.generateThumbnail then
    if !o.thumbResizeOk then
      (Except.error ProcessingError.thumbnailResizeFailed, [mainKey])
    else if !o.thumbUploadOk then
      (Except.error ProcessingError.thumbnailUploadFailed, [mainKey])
    else
      (Except.error ProcessingError.thumbnailBufferUndefined,
       [mainKey, thumbKey])
  else
    (Except.ok
      { mainImage := { key := mainKey, width := img.width, height := img.height },
        thumbnail := none,
        colorPalette :=
          if opts.extractColors then extractDominantColors o.colorOk palette
          else [] },
     [mainKey])

/-- The route persists a photo record only when the pipeline returned
successfully (src/unnamed/part_001 lines 90-124: Photo.create follows the
awaited pipeline call, and a throw skips it). -/
def photoRecordOf :
    Except ProcessingError PipelineOut → Option PipelineOut
  | Except.error _ => none
  | Except.ok r => some r

/-- The all-stages-succeed oracle. -/
def allStagesOk : StageOracle :=
  { metadataOk := true, resizeOk := true, mainUploadOk := true,
    thumbResizeOk := true, thumbUploadOk := true, colorOk := true }

/-! ## Photo lifecycle and user stats (claim C9)

Stat hooks: src/unnamed/part_003 lines 1138-1168 (identical in the legacy
variant, src/unnamed/part_004 lines 221-251).  Deletion routes:
src/unnamed/part_000 lines 422-452, src/unnamed/part_001 lines 298-342,
src/unnamed/part_003 lines 467-488, and the deleteMany cascades. -/

structure StatsUser where
  id : Nat
  totalPhotos : Int
deriving DecidableEq, Repr

structure PhotoDoc where
  id : Nat
  user : Nat
  publicId : String
deriving DecidableEq, Repr

structure MediaState where
  users : List StatsUser
  photos : List PhotoDoc
  storage : List String
deriving DecidableEq, Repr

/-- The thumbnail key derived from the stored key: publicId.replace of
.jpg by _thumb.jpg (src/unnamed/part_001 line 325; the generated keys
contain one .jpg occurrence). -/
def thumbKeyOf (k : String) : String :=
  k.replace ".jpg" "_thumb.jpg"

/-- findByIdAndUpdate with an increment of stats.totalPhotos by d. -/
def incTotalPhotos (users : List StatsUser) (uid : Nat) (d : Int) :
    List StatsUser :=
  users.map (fun u =>
    if u.id == uid then { u with totalPhotos := u.totalPhotos + d } else u)

/-- The stored stat of a user (0 when the user is missing). -/
def statOf (users : List StatsUser) (uid : Nat) : Int :=
  match users.find? (fun u => u.id == uid) with
  | some u => u.totalPhotos
  | none => 0

/-- Photo.create: the pre-save hook sees a new document and increments the
owner totalPhotos by 1, then the document is written
(src/unnamed/part_003 lines 1138-1150). -/
def createPhoto (st : MediaState) (p : PhotoDoc) : MediaState :=
  { st with
    users := incTotalPhotos st.users p.user 1,
    photos := st.photos ++ [p] }

/-- DELETE /api/photos/:id (src/unnamed/part_000 lines 422-452): after the
ownership check the route calls photo.deleteOne().  deleteOne does not
fire the pre-remove middleware, and the handler itself deletes nothing
from storage, so only the document disappears. -/
def deletePhotoPhotosRoute (st : MediaState) (id uid : Nat) : MediaState :=
  match st.photos.find? (fun p => p.id == id) with
  | none => st
  | some p =>
    if p.user == uid then
      { st with photos := st.photos.filter (fun q => q.id != id) }
    else st

/-- DELETE /api/upload/photo/:id (src/unnamed/part_001 lines 298-342):
after the ownership check the route best-effort deletes the main and
thumbnail objects from R2 and then calls photo.remove(), which fires the
pre-remove hook decrementing the owner totalPhotos by 1. -/
def deletePhotoUploadRoute (st : MediaState) (id uid : Nat) : MediaState :=
  match st.photos.find? (fun p => p.id == id) with
  | none => st
  | some p =>
    if p.user == uid then
      { users := incTotalPhotos st.users p.user (-1),
        photos := st.photos.filter (fun q => q.id != id),
        storage := st.storage.filter
          (fun k => k != p.publicId && k != thumbKeyOf p.publicId) }
    else st

/-- DELETE /api/admin/photos/:id (src/unnamed/part_003 lines 467-488):
Photo.findByIdAndDelete, a query-level delete that fires no document
middleware and touches no storage. -/
def adminDeletePhotoRoute (st : MediaState) (id : Nat) : MediaState :=
  match st.photos.find? (fun p => p.id == id) with
  | none => st
  | some _ => { st with photos := st.photos.filter (fun q => q.id != id) }

/-- The cascade paths (userSchema and portfolioSchema pre-remove hooks,
src/src/models/User.js lines 222-231 and 560-568, and the admin user
delete, src/unnamed/part_003 line 450) all use Photo.deleteMany, which
fires no per-document middleware and touches no storage. -/
def cascadeDeleteUserPhotos (st : MediaState) (uid : Nat) : MediaState :=
  { st with photos := st.photos.filter (fun q => q.user != uid) }

/-! ## Shared helper lemmas -/

/-- When a Boolean filter leaves exactly one element, find? returns it. -/
theorem find_of_filter_singleton {α : Type} (pr : α → Bool) (a : α) :
    ∀ l : List α, l.filter pr = [a] → l.find? pr = some a := by
  intro l
  induction l with
  | nil => intro h; cases h
  | cons x xs ih =>
    intro h
    by_cases hx : pr x = true
    · rw [List.filter_cons_of_pos hx] at h
      rw [List.find?_cons_of_pos _ hx]
      exact congrArg some (List.cons_eq_cons.mp h).1
    · rw [List.filter_cons_of_neg hx] at h
      rw [List.find?_cons_of_neg _ hx]
      exact ih h

/-- Lists of length at most one have at most one member. -/
theorem mem_of_length_le_one {α : Type} {l : List α} (h : l.length ≤ 1)
    {a b : α} (ha : a ∈ l) (hb : b ∈ l) : a = b := by
  match l, h with
  | [], _ => cases ha
  | [x], _ =>
    rw [List.mem_singleton] at ha hb
    rw [ha, hb]

/-! ## Claim C10: listing predicate and count predicate agree -/

/-- C10: in GET /api/photos the filter used by Photo.search and the filter
used by countDocuments select exactly the same photos, so for every
database state the reported pagination.total counts the very set the
listing draws its page from, and every returned photo satisfies that
predicate. -/
theorem listing_count_predicates_agree (db : List Photo) (o : SearchOpts)
    (skip limit : Nat) :
    (∀ p : Photo, countFilter o p = searchFilter o p) ∧
    (listPhotos db o skip limit).2 = (db.filter (searchFilter o)).length ∧
    ∀ p : Photo, p ∈ (listPhotos db o skip limit).1 →
      searchFilter o p = true := by
  refine ⟨fun p => rfl, rfl, ?_⟩
  intro p hp
  have h1 : p ∈ db.filter (searchFilter o) :=
    List.drop_subset _ _ (List.take_subset _ _ hp)
  exact List.of_mem_filter h1

/-! ## Claim C1: visibility of non-public and pending photos -/

/-- C1 counterexample: a freshly uploaded photo is pending yet carries
isPublic = true, and GET /api/photos/:id serves it to a non-owner (user 5)
instead of rejecting with 403/404. -/
theorem pending_photo_served_to_nonowner :
    getPhotoById [pendingPublicPhoto] 1 (some 5) =
      FetchResult.ok pendingPublicPhoto ∧
    pendingPublicPhoto.approvalStatus = ApprovalStatus.pending ∧
    pendingPublicPhoto.user ≠ 5 := by
  refine ⟨rfl, rfl, ?_⟩
  decide

/-- C1 amended: a photo with isPublic = false is excluded from the public
listing and a direct fetch by any requester other than the owner answers
403; a photo whose moderation state is not approved is likewise excluded
from the public listing (the direct fetch, however, is gated only by
isPublic). -/
theorem nonpublic_photo_hidden (db : List Photo) (o : SearchOpts)
    (p : Photo) (requester : Option Nat) (hnp : p.isPublic = false) :
    p ∉ db.filter (searchFilter o) ∧
    (db.find? (fun q => q.id == p.id) = some p → requester ≠ some p.user →
      getPhotoById db p.id requester = FetchResult.forbidden) ∧
    ∀ q : Photo, q.approvalStatus ≠ ApprovalStatus.approved →
      q ∉ db.filter (searchFilter o) := by
  refine ⟨?_, ?_, ?_⟩
  · intro hmem
    have h := List.of_mem_filter hmem
    simp only [searchFilter, Bool.and_eq_true] at h
    rw [hnp] at h
    exact Bool.false_ne_true h.1.1.1.1.1.1
  · intro hfind hreq
    have hacc : canAccess p requester = false := by
      unfold canAccess
      rw [hnp]
      cases requester with
      | none => rfl
      | some v =>
        simp only [Bool.false_or]
        have hv : v ≠ p.user := fun hv => hreq (by rw [hv])
        exact beq_eq_false_iff_ne.mpr hv
    simp [getPhotoById, hfind, hacc]
  · intro q hq hmem
    have h := List.of_mem_filter hmem
    simp only [searchFilter, Bool.and_eq_true, beq_iff_eq] at h
    exact hq h.1.1.1.1.1.2

/-- Witness for the amended C1 at concrete inputs: a private photo is not
listed and a stranger's direct fetch is refused; a pending photo is not
listed. -/
theorem nonpublic_photo_hidden_witness :
    privatePhoto ∉ [privatePhoto, pendingPublicPhoto].filter
      (searchFilter emptySearch) ∧
    getPhotoById [privatePhoto] privatePhoto.id (some 5) =
      FetchResult.forbidden ∧
    pendingPublicPhoto ∉ [privatePhoto, pendingPublicPhoto].filter
      (searchFilter emptySearch) := by
  have h := nonpublic_photo_hidden [privatePhoto, pendingPublicPhoto]
    emptySearch privatePhoto (some 5) rfl
  have h2 := nonpublic_photo_hidden [privatePhoto] emptySearch
    privatePhoto (some 5) rfl
  refine ⟨h.1, h2.2.1 (by decide) (by decide), ?_⟩
  exact h.2.2 pendingPublicPhoto (by decide)

/-! ## Claim C6: upload quota -/

/-- C6: a free-plan user whose recorded photo count has reached 30 is
rejected by the upload quota gate, and a pro-plan user passes it whatever
their count. -/
theorem upload_quota_enforced (u : QuotaUser) :
    (u.plan = Plan.free → 30 ≤ u.totalPhotos →
      uploadQuotaGate u = UploadGate.quotaRejected) ∧
    (u.plan = Plan.pro → uploadQuotaGate u = UploadGate.allowed) := by
  obtain ⟨plan, n⟩ := u
  constructor
  · intro hp hn
    cases hp
    simp only [uploadQuotaGate, checkSubscriptionLimitsPhotos, planPhotoLimit,
      decide_eq_true_eq]
    rw [if_pos hn]
  · intro hp
    cases hp
    rfl

/-- Witness for C6: a free user at exactly 30 photos is rejected, a pro
user at 1000 photos is allowed. -/
theorem upload_quota_enforced_witness :
    uploadQuotaGate { plan := Plan.free, totalPhotos := 30 } =
      UploadGate.quotaRejected ∧
    uploadQuotaGate { plan := Plan.pro, totalPhotos := 1000 } =
      UploadGate.allowed :=
  ⟨(upload_quota_enforced { plan := Plan.free, totalPhotos := 30 }).1 rfl
    (by decide),
   (upload_quota_enforced { plan := Plan.pro, totalPhotos := 1000 }).2 rfl⟩

/-! ## Claim C2: at most one default portfolio per user -/

/-- Unfolding equation for defaultCount over a cons cell. -/
theorem defaultCount_cons (y : Portfolio) (rest : List Portfolio)
    (uid : Nat) :
    defaultCount (y :: rest) uid =
      (if (y.user == uid && y.isDefault) = true then 1 else 0) +
        defaultCount rest uid := by
  simp only [defaultCount, List.filter_cons]
  split
  · simp [Nat.add_comm]
  · simp

/-- A list in which no element is a counted default has count zero. -/
theorem defaultCount_zero_of_none (uid : Nat) (l : List Portfolio)
    (h : ∀ q ∈ l, (q.user == uid && q.isDefault) = false) :
    defaultCount l uid = 0 := by
  unfold defaultCount
  rw [List.filter_eq_nil_iff.mpr (fun a ha => by rw [h a ha]; exact fun hc => nomatch hc)]
  rfl

/-- After the sibling-clearing hook and the write of the new default, the
elements other than the target are never counted. -/
theorem cleared_map_tail_zero (p' : Portfolio) (uid : Nat)
    (huser : p'.user = uid) (xs : List Portfolio)
    (hno : ∀ q ∈ xs, (q.id == p'.id) = false) :
    defaultCount ((clearSiblingDefaults xs p').map
      (fun q => if q.id == p'.id then p' else q)) uid = 0 := by
  apply defaultCount_zero_of_none
  intro y hy
  simp only [clearSiblingDefaults, List.map_map, List.mem_map] at hy
  obtain ⟨q, hq, hyq⟩ := hy
  have hqid : (q.id == p'.id) = false := hno q hq
  subst hyq
  simp only [Function.comp_apply, bne, hqid, Bool.not_false, Bool.and_true]
  by_cases hu : (q.user == p'.user) = true
  · rw [if_pos hu]
    simp [hqid]
  · rw [if_neg hu, if_neg (by simp [hqid])]
    have hqu : (q.user == uid) = false := by
      rw [← huser]
      exact Bool.eq_false_iff.mpr hu
    simp [hqu]

/-- Unfolding equation: clearing then writing over a cons cell. -/
theorem clear_map_cons (p' x : Portfolio) (xs : List Portfolio) :
    (clearSiblingDefaults (x :: xs) p').map
        (fun q => if q.id == p'.id then p' else q) =
      ((fun q => if q.id == p'.id then p' else q)
        (if x.user == p'.user && x.id != p'.id then
          { x with isDefault := false } else x)) ::
      (clearSiblingDefaults xs p').map
        (fun q => if q.id == p'.id then p' else q) := rfl

/-- Writing the new default p' over a state whose only id-match is p
leaves exactly one counted default for the owner. -/
theorem count_after_default_save (p p' : Portfolio) (uid : Nat)
    (hid : p'.id = p.id) (huser : p'.user = uid)
    (hdef : p'.isDefault = true) :
    ∀ state : List Portfolio, state.filter (fun q => q.id == p.id) = [p] →
      defaultCount ((clearSiblingDefaults state p').map
        (fun q => if q.id == p'.id then p' else q)) uid = 1 := by
  intro state
  induction state with
  | nil => intro h; cases h
  | cons x xs ih =>
    intro h
    rw [clear_map_cons, defaultCount_cons]
    by_cases hx : (x.id == p.id) = true
    · simp only [List.filter_cons] at h
      rw [if_pos hx] at h
      obtain ⟨hxp, hxs⟩ := List.cons_eq_cons.mp h
      subst hxp
      have h1 : (x.id == p'.id) = true := by rw [hid]; exact hx
      have h2 : (x.id != p'.id) = false := by rw [bne, h1]; rfl
      have hno : ∀ q ∈ xs, (q.id == p'.id) = false := by
        intro q hq
        have hq' := List.filter_eq_nil_iff.mp hxs q hq
        rw [hid]
        exact Bool.eq_false_iff.mpr hq'
      rw [cleared_map_tail_zero p' uid huser xs hno]
      simp [h1, h2, huser, hdef]
    · simp only [List.filter_cons] at h
      rw [if_neg hx] at h
      have hxb : (x.id == p.id) = false := Bool.eq_false_iff.mpr hx
      have h1 : (x.id == p'.id) = false := by rw [hid]; exact hxb
      have h2 : (x.id != p'.id) = true := by rw [bne, h1]; rfl
      rw [ih h]
      by_cases hu : (x.user == p'.user) = true
      · simp [h1, h2, hu]
      · have hu' : (x.user == p'.user) = false := Bool.eq_false_iff.mpr hu
        have hxu : (x.user == uid) = false := by rw [← huser]; exact hu'
        simp [h1, h2, hu', hxu]
/-- C2 counterexample: the generic PUT /api/portfolios/:id goes through
findByIdAndUpdate, which bypasses the pre-save sibling-clearing hook;
setting isDefault on the second portfolio of user 1 leaves both
portfolios flagged default, not at most one. -/
theorem generic_update_breaks_default_uniqueness :
    defaultCount (updatePortfolioRoute
      [{ id := 1, user := 1, isDefault := true },
       { id := 2, user := 1, isDefault := false }] 2 1
      { isDefault := some true }) 1 = 2 := by decide

/-- C2 amended: writes that go through document save (create and
PUT /api/portfolios/:id/default) keep at most one default per user; in
particular setting isDefault on a second portfolio of the same user via
the dedicated route leaves exactly one default.  (The generic
findByIdAndUpdate route bypasses the hook, as the counterexample
records.) -/
theorem set_default_leaves_one_default (state : List Portfolio)
    (id uid : Nat) (p : Portfolio)
    (huniq : state.filter (fun q => q.id == id) = [p])
    (hown : p.user = uid) (hnot : p.isDefault = false) :
    defaultCount (setDefaultRoute state id uid) uid = 1 := by
  have hfind := find_of_filter_singleton (fun q => q.id == id) p state huniq
  have hpmem : p ∈ state.filter (fun q => q.id == id) := by
    rw [huniq]; exact List.mem_singleton_self p
  have hpid : (p.id == id) = true := (List.mem_filter.mp hpmem).2
  have hpid' : p.id = id := by simpa using hpid
  subst hpid'
  unfold setDefaultRoute
  rw [hfind]
  show defaultCount
    (if (p.user == uid) = true then
      portfolioSave state { p with isDefault := true } (!p.isDefault)
     else state) uid = 1
  rw [if_pos (by rw [hown]; exact beq_self_eq_true uid)]
  unfold portfolioSave
  rw [hnot]
  show defaultCount
    (saveDoc (clearSiblingDefaults state { p with isDefault := true })
      { p with isDefault := true }) uid = 1
  unfold saveDoc
  have hany : (clearSiblingDefaults state { p with isDefault := true }).any
      (fun q => q.id == ({ p with isDefault := true } : Portfolio).id) = true := by
    apply List.any_eq_true.mpr
    refine ⟨(fun q => if q.user == p.user && q.id != p.id then
      { q with isDefault := false } else q) p, ?_, ?_⟩
    · exact List.mem_map_of_mem _ (List.mem_of_mem_filter hpmem)
    · show ((if (p.user == p.user && p.id != p.id) = true then
          ({ p with isDefault := false } : Portfolio) else p).id ==
          ({ p with isDefault := true } : Portfolio).id) = true
      rw [if_neg (by simp)]
      exact beq_self_eq_true p.id
  rw [if_pos hany]
  exact count_after_default_save p { p with isDefault := true } uid rfl hown
    rfl state huniq

/-- Witness for the amended C2: making the non-default second portfolio
the default leaves exactly one default for user 1. -/
theorem set_default_leaves_one_default_witness :
    defaultCount (setDefaultRoute
      [{ id := 1, user := 1, isDefault := true },
       { id := 2, user := 1, isDefault := false }] 2 1) 1 = 1 :=
  set_default_leaves_one_default
    [{ id := 1, user := 1, isDefault := true },
     { id := 2, user := 1, isDefault := false }] 2 1
    { id := 2, user := 1, isDefault := false } (by decide) rfl rfl

/-! ## Claim C3: refresh-token rotation -/

/-- After replacing the found user in place, find? returns the
replacement. -/
theorem find_after_replace (u u3 : AuthUser) (hid : u3.id = u.id) :
    ∀ users : List AuthUser,
      users.find? (fun v => v.id == u.id) = some u →
      (users.map (fun v => if v.id == u.id then u3 else v)).find?
        (fun v => v.id == u.id) = some u3 := by
  intro users
  induction users with
  | nil => intro h; cases h
  | cons x xs ih =>
    intro h
    rw [List.map_cons]
    by_cases hx : (x.id == u.id) = true
    · rw [if_pos hx, List.find?_cons]
      have hc : (u3.id == u.id) = true := by
        rw [hid]; exact beq_self_eq_true u.id
      simp only [hc]
    · rw [if_neg hx, List.find?_cons]
      have hc : (x.id == u.id) = false := Bool.eq_false_iff.mpr hx
      rw [List.find?_cons] at h
      simp only [hc] at h ⊢
      exact ih h

/-- C3: presenting a stored refresh token to POST /api/auth/refresh
succeeds, removes that token from the user's stored records, and a second
presentation of the same (now consumed) token is rejected with 401.  The
hypothesis newTok ≠ tok states that the freshly signed token differs from
the presented one, which holds whenever the two signings carry different
issued-at seconds. -/
theorem refresh_token_single_use (users : List AuthUser)
    (decode : String → Option Nat) (tok newTok newTok2 : String)
    (u : AuthUser)
    (hdec : decode tok = some u.id)
    (hfind : users.find? (fun v => v.id == u.id) = some u)
    (hhas : u.refreshTokens.any (fun rt => rt == tok) = true)
    (hneq : newTok ≠ tok) :
    (refreshRoute users decode tok newTok).1 = RefreshResult.refreshed ∧
    (∀ v : AuthUser,
      (refreshRoute users decode tok newTok).2.find?
        (fun w => w.id == u.id) = some v → tok ∉ v.refreshTokens) ∧
    (refreshRoute (refreshRoute users decode tok newTok).2 decode tok
        newTok2).1 = RefreshResult.unauthorized := by
  have hroute :
      refreshRoute users decode tok newTok =
        (RefreshResult.refreshed,
         users.map (fun v => if v.id == u.id then
           { u with refreshTokens :=
             ((u.refreshTokens ++ [newTok]).filter (fun rt => rt != tok))
               ++ [newTok] }
           else v)) := by
    simp only [refreshRoute, hdec, hfind, hhas, if_true, generateRefreshToken,
      removeRefreshToken]
  have hmem : tok ∉
      (((u.refreshTokens ++ [newTok]).filter (fun rt => rt != tok))
        ++ [newTok]) := by
    intro hmem
    rcases List.mem_append.mp hmem with hf | hs
    · have hb := (List.mem_filter.mp hf).2
      simp at hb
    · rw [List.mem_singleton] at hs
      exact hneq hs.symm
  have hfind3 := find_after_replace u
    { u with refreshTokens :=
      ((u.refreshTokens ++ [newTok]).filter (fun rt => rt != tok))
        ++ [newTok] } rfl users hfind
  have hany2 :
      ((((u.refreshTokens ++ [newTok]).filter (fun rt => rt != tok))
        ++ [newTok]).any (fun rt => rt == tok)) = false := by
    rw [Bool.eq_false_iff]
    intro hc
    obtain ⟨x, hxmem, hxeq⟩ := List.any_eq_true.mp hc
    rw [beq_iff_eq] at hxeq
    rw [hxeq] at hxmem
    exact hmem hxmem
  refine ⟨by rw [hroute], ?_, ?_⟩
  · intro v hv
    rw [hroute] at hv
    rw [hfind3] at hv
    cases hv
    exact hmem
  · rw [hroute]
    simp only [refreshRoute, hdec, hfind3, hany2, Bool.false_eq_true,
      if_false]

/-- Witness for C3 at a concrete user and decoder: the stored token is
consumed by the first refresh and rejected on reuse. -/
theorem refresh_token_single_use_witness :
    (refreshRoute [{ id := 1, refreshTokens := ["a"] }]
      (fun t => if t == "a" then some 1 else none) "a" "b").1 =
        RefreshResult.refreshed ∧
    (refreshRoute (refreshRoute [{ id := 1, refreshTokens := ["a"] }]
        (fun t => if t == "a" then some 1 else none) "a" "b").2
      (fun t => if t == "a" then some 1 else none) "a" "c").1 =
        RefreshResult.unauthorized := by
  have h := refresh_token_single_use [{ id := 1, refreshTokens := ["a"] }]
    (fun t => if t == "a" then some 1 else none) "a" "b" "c"
    { id := 1, refreshTokens := ["a"] } (by decide) (by decide) (by decide)
    (by decide)
  exact ⟨h.1, h.2.2⟩

/-! ## Claim C4: registration -/

/-- C4: duplicate email or username is rejected with an identifying
conflict message, but a registration with a fresh pair does NOT return
201: after the user and the default portfolio documents are written, the
push onto the undeclared portfolios path of the user schema throws a
TypeError and the route answers 500.  This theorem evaluates the route at
the failing input (fresh pair on an empty database) and at a conflicting
input. -/
theorem register_fresh_pair_returns_500 :
    (registerRoute { users := [], portfolios := [] }
      "alice" "alice@example.com" 1 10).1 = RegisterResult.serverError ∧
    (registerRoute { users := [], portfolios := [] }
      "alice" "alice@example.com" 1 10).2 =
      { users := [{ id := 1, username := "alice",
                    email := "alice@example.com" }],
        portfolios := [{ id := 10, user := 1, isDefault := true }] } ∧
    (registerRoute
      { users := [{ id := 1, username := "alice",
                    email := "alice@example.com" }],
        portfolios := [{ id := 10, user := 1, isDefault := true }] }
      "bob" "alice@example.com" 2 11).1 =
      RegisterResult.conflict "Email already exists" := by
  refine ⟨rfl, rfl, rfl⟩

/-! ## Claim C5: at least one super_admin -/

/-- Unfolding equation for superAdminCount over a cons cell. -/
theorem superAdminCount_cons (x : AdminUser) (xs : List AdminUser) :
    superAdminCount (x :: xs) =
      (if (x.role == "super_admin") = true then 1 else 0) +
        superAdminCount xs := by
  unfold superAdminCount
  rw [List.filter_cons]
  split
  · simp [Nat.add_comm]
  · simp

/-- Unfolding equation for the id-filter length over a cons cell. -/
theorem idFilter_cons (x : AdminUser) (xs : List AdminUser) (id : Nat) :
    ((x :: xs).filter (fun u => u.id == id)).length =
      (if (x.id == id) = true then 1 else 0) +
        (xs.filter (fun u => u.id == id)).length := by
  rw [List.filter_cons]
  split
  · simp [Nat.add_comm]
  · simp

/-- A positive super-admin count is the existence of a super admin. -/
theorem one_le_superAdminCount_iff (users : List AdminUser) :
    1 ≤ superAdminCount users ↔
      ∃ u ∈ users, (u.role == "super_admin") = true := by
  unfold superAdminCount
  constructor
  · intro h
    match hf : users.filter (fun u => u.role == "super_admin") with
    | [] => rw [hf] at h; cases h
    | x :: xs =>
      have hx : x ∈ users.filter (fun u => u.role == "super_admin") := by
        rw [hf]; exact List.mem_cons_self x xs
      exact ⟨x, List.mem_of_mem_filter hx, (List.mem_filter.mp hx).2⟩
  · rintro ⟨u, hu, hrole⟩
    have hmem : u ∈ users.filter (fun v => v.role == "super_admin") :=
      List.mem_filter.mpr ⟨hu, hrole⟩
    have hlen := List.length_pos.mpr (List.ne_nil_of_mem hmem)
    omega

/-- With at most one document per id and at least two super admins, some
super admin has a different id. -/
theorem exists_super_other_id (id : Nat) :
    ∀ users : List AdminUser,
      (users.filter (fun u => u.id == id)).length ≤ 1 →
      2 ≤ superAdminCount users →
      ∃ u ∈ users, (u.role == "super_admin") = true ∧
        (u.id == id) = false := by
  intro users
  induction users with
  | nil => intro _ h2; rw [show superAdminCount [] = 0 from rfl] at h2; omega
  | cons x xs ih =>
    intro hids h2
    rw [idFilter_cons] at hids
    rw [superAdminCount_cons] at h2
    by_cases hsx : (x.role == "super_admin") = true
    · by_cases hix : (x.id == id) = true
      · rw [if_pos hix] at hids
        rw [if_pos hsx] at h2
        have hxs0 : (xs.filter (fun u => u.id == id)).length = 0 := by omega
        have hxs1 : 1 ≤ superAdminCount xs := by omega
        obtain ⟨u, hu, hrole⟩ := (one_le_superAdminCount_iff xs).mp hxs1
        have hnil : xs.filter (fun u => u.id == id) = [] :=
          List.length_eq_zero.mp hxs0
        have hne := List.filter_eq_nil_iff.mp hnil u hu
        exact ⟨u, List.mem_cons_of_mem x hu, hrole,
          Bool.eq_false_iff.mpr hne⟩
      · exact ⟨x, List.mem_cons_self x xs, hsx, Bool.eq_false_iff.mpr hix⟩
    · rw [if_neg hsx] at h2
      have hxs2 : 2 ≤ superAdminCount xs := by omega
      have hidxs : (xs.filter (fun u => u.id == id)).length ≤ 1 := by
        by_cases hix : (x.id == id) = true
        · rw [if_pos hix] at hids; omega
        · rw [if_neg hix] at hids; omega
      obtain ⟨u, hu, hrole, hidne⟩ := ih hidxs hxs2
      exact ⟨u, List.mem_cons_of_mem x hu, hrole, hidne⟩

/-- Changing only the isActive flag never changes the super-admin count. -/
theorem superAdminCount_map_status (users : List AdminUser) (id : Nat)
    (isActive : Bool) :
    superAdminCount (users.map (fun u =>
      if u.id == id then { u with isActive := isActive } else u)) =
      superAdminCount users := by
  induction users with
  | nil => rfl
  | cons x xs ih =>
    rw [List.map_cons, superAdminCount_cons, superAdminCount_cons, ih]
    by_cases hx : (x.id == id) = true
    · rw [if_pos hx]
    · rw [if_neg hx]

/-- The role-update guard preserves the existence of a super admin. -/
theorem updateRole_preserves (users : List AdminUser) (id : Nat)
    (role : String)
    (hids : (users.filter (fun u => u.id == id)).length ≤ 1)
    (hinv : 1 ≤ superAdminCount users) :
    1 ≤ superAdminCount (updateRoleRoute users id role).2 := by
  unfold updateRoleRoute
  by_cases hguard :
      (role != "super_admin" && decide (superAdminCount users ≤ 1)) = true
  · rw [if_pos hguard]
    exact hinv
  · rw [if_neg hguard]
    cases hfind : users.find? (fun u => u.id == id) with
    | none => exact hinv
    | some w =>
      show 1 ≤ superAdminCount (users.map (fun u =>
        if u.id == id then { u with role := role } else u))
      by_cases hrole : role = "super_admin"
      · apply (one_le_superAdminCount_iff _).mpr
        have hw : w ∈ users := List.mem_of_find?_eq_some hfind
        have hwid0 := List.find?_some hfind
        have hwid : (w.id == id) = true := hwid0
        refine ⟨{ w with role := role }, ?_, ?_⟩
        · have hmm := List.mem_map_of_mem
            (fun u => if u.id == id then { u with role := role } else u) hw
          simp only [hwid, if_true] at hmm
          exact hmm
        · rw [hrole]; exact beq_self_eq_true _
      · have hbne : (role != "super_admin") = true :=
          bne_iff_ne.mpr hrole
        rw [hbne, Bool.true_and] at hguard
        have h2 : 2 ≤ superAdminCount users := by
          rcases Nat.lt_or_ge (superAdminCount users) 2 with hlt | hge
          · exact absurd (by exact decide_eq_true (by omega)) hguard
          · exact hge
        obtain ⟨u, hu, hsup, hidne⟩ :=
          exists_super_other_id id users hids h2
        apply (one_le_superAdminCount_iff _).mpr
        refine ⟨u, ?_, hsup⟩
        have hmm := List.mem_map_of_mem
          (fun v => if v.id == id then { v with role := role } else v) hu
        simp only [hidne, Bool.false_eq_true, if_false] at hmm
        exact hmm

/-- The deletion guard preserves the existence of a super admin. -/
theorem deleteUser_preserves (users : List AdminUser) (id : Nat)
    (hids : (users.filter (fun u => u.id == id)).length ≤ 1)
    (hinv : 1 ≤ superAdminCount users) :
    1 ≤ superAdminCount (deleteUserRoute users id).2 := by
  obtain ⟨u0, hu0, hrole0⟩ := (one_le_superAdminCount_iff users).mp hinv
  unfold deleteUserRoute
  cases hfind : users.find? (fun u => u.id == id) with
  | some w =>
    show 1 ≤ superAdminCount
      (if (w.role == "super_admin") = true then (AdminResult.rejected, users)
       else (AdminResult.ok, users.filter (fun v => v.id != id))).2
    by_cases hw : (w.role == "super_admin") = true
    · rw [if_pos hw]
      exact hinv
    · rw [if_neg hw]
      show 1 ≤ superAdminCount (users.filter (fun v => v.id != id))
      apply (one_le_superAdminCount_iff _).mpr
      by_cases hid0 : (u0.id == id) = true
      · exfalso
        have hmem0 : u0 ∈ users.filter (fun u => u.id == id) :=
          List.mem_filter.mpr ⟨hu0, hid0⟩
        have hwid0 := List.find?_some hfind
        have hmemw : w ∈ users.filter (fun u => u.id == id) :=
          List.mem_filter.mpr ⟨List.mem_of_find?_eq_some hfind, hwid0⟩
        have heq := mem_of_length_le_one hids hmem0 hmemw
        rw [heq] at hrole0
        exact hw hrole0
      · refine ⟨u0, List.mem_filter.mpr ⟨hu0, ?_⟩, hrole0⟩
        rw [bne, Bool.eq_false_iff.mpr hid0]
        rfl
  | none =>
    show 1 ≤ superAdminCount (users.filter (fun v => v.id != id))
    apply (one_le_superAdminCount_iff _).mpr
    have hne := List.find?_eq_none.mp hfind u0 hu0
    refine ⟨u0, List.mem_filter.mpr ⟨hu0, ?_⟩, hrole0⟩
    rw [bne, Bool.eq_false_iff.mpr hne]
    rfl

/-- The status route never changes any role, so it preserves the
existence of a super admin; its guard additionally rejects deactivating
the last active super admin. -/
theorem setStatus_preserves (users : List AdminUser) (id : Nat)
    (isActive : Bool) (hinv : 1 ≤ superAdminCount users) :
    1 ≤ superAdminCount (setStatusRoute users id isActive).2 := by
  unfold setStatusRoute
  split
  · exact hinv
  · cases hfind : users.find? (fun u => u.id == id) with
    | none => exact hinv
    | some w =>
      show 1 ≤ superAdminCount (users.map (fun u =>
        if u.id == id then { u with isActive := isActive } else u))
      rw [superAdminCount_map_status]
      exact hinv

/-- C5 counterexample: DELETE /api/auth/me carries no super-admin guard,
so the last remaining super_admin can delete their own account with just
the password, leaving a state with no super_admin at all. -/
theorem last_super_admin_can_self_delete :
    (selfDeleteRoute [{ id := 1, role := "super_admin", isActive := true }]
      1 true).1 = AdminResult.ok ∧
    superAdminCount (selfDeleteRoute
      [{ id := 1, role := "super_admin", isActive := true }]
      1 true).2 = 0 :=
  ⟨rfl, rfl⟩

/-- C5 amended: the three admin endpoints (role update, user deletion,
status toggle) preserve the existence of a user with role super_admin,
and the status route rejects deactivating the last active super admin;
self-deletion via DELETE /api/auth/me is not guarded, as the
counterexample records.  The id-filter hypothesis states that ids are
unique, which the document store guarantees. -/
theorem admin_guards_preserve_super_admin (users : List AdminUser)
    (id : Nat) (role : String) (isActive : Bool)
    (hids : (users.filter (fun u => u.id == id)).length ≤ 1)
    (hinv : 1 ≤ superAdminCount users) :
    1 ≤ superAdminCount (updateRoleRoute users id role).2 ∧
    1 ≤ superAdminCount (deleteUserRoute users id).2 ∧
    1 ≤ superAdminCount (setStatusRoute users id isActive).2 ∧
    (∀ w : AdminUser, users.find? (fun u => u.id == id) = some w →
      (w.role == "super_admin") = true →
      activeSuperAdminCount users ≤ 1 →
      (setStatusRoute users id false).1 = AdminResult.rejected) := by
  refine ⟨updateRole_preserves users id role hids hinv,
    deleteUser_preserves users id hids hinv,
    setStatus_preserves users id isActive hinv, ?_⟩
  intro w hfindw hw hcnt
  simp [setStatusRoute, hfindw, hw, hcnt]

/-- Witness for the amended C5 at a concrete one-admin state: demotion
and deletion leave the super admin in place, and deactivation is
rejected. -/
theorem admin_guards_preserve_super_admin_witness :
    1 ≤ superAdminCount (updateRoleRoute
      [{ id := 1, role := "super_admin", isActive := true }] 1 "user").2 ∧
    1 ≤ superAdminCount (deleteUserRoute
      [{ id := 1, role := "super_admin", isActive := true }] 1).2 ∧
    (setStatusRoute [{ id := 1, role := "super_admin", isActive := true }]
      1 false).1 = AdminResult.rejected := by
  have h := admin_guards_preserve_super_admin
    [{ id := 1, role := "super_admin", isActive := true }] 1 "user" false
    (by decide) (by decide)
  exact ⟨h.1, h.2.1, h.2.2.2
    { id := 1, role := "super_admin", isActive := true }
    (by decide) (by decide) (by decide)⟩

/-! ## Claim C7: image pipeline output -/

/-- C7: evaluated at a 4000 by 3000 upload with the options the photo
route passes, the pipeline does not return a result at all: the return
object reads the out-of-scope thumbnailBuffer and the call throws
(surfaced as a processing failure, HTTP 500), so no upload ever
completes.  For contrast, the resize stage itself would produce a
2048 by 1536 main image, while the width and height the code records are
the original 4000 by 3000 (visible on the thumbnail-free path). -/
theorem upload_pipeline_reference_error :
    (processAndUploadImage { width := 4000, height := 3000 } {}
      allStagesOk [] "m.jpg" "m_thumb.jpg").1 =
      Except.error ProcessingError.thumbnailBufferUndefined ∧
    fitInside 4000 3000 2048 2048 = (2048, 1536) ∧
    (processAndUploadImage { width := 4000, height := 3000 }
      { generateThumbnail := false } allStagesOk [] "m.jpg"
      "m_thumb.jpg").1 =
      Except.ok
        { mainImage := { key := "m.jpg", width := 4000, height := 3000 },
          thumbnail := none, colorPalette := [] } := by
  refine ⟨rfl, by decide, rfl⟩

/-! ## Claim C8: abort behaviour of the pipeline -/

/-- C8 counterexample: when the thumbnail upload fails after the main
image was uploaded, the pipeline aborts with a ProcessingError as
claimed, but the main-image object stays behind in storage: a stray
stored object remains. -/
theorem thumbnail_failure_leaves_stray_main_object :
    processAndUploadImage { width := 4000, height := 3000 } {}
      { metadataOk := true, resizeOk := true, mainUploadOk := true,
        thumbResizeOk := true, thumbUploadOk := false, colorOk := true }
      [] "m.jpg" "m_thumb.jpg" =
      (Except.error ProcessingError.thumbnailUploadFailed, ["m.jpg"]) ∧
    "m.jpg" ∈ (processAndUploadImage { width := 4000, height := 3000 } {}
      { metadataOk := true, resizeOk := true, mainUploadOk := true,
        thumbResizeOk := true, thumbUploadOk := false, colorOk := true }
      [] "m.jpg" "m_thumb.jpg").2 := by
  refine ⟨rfl, by decide⟩

/-- C8 amended: an aborted pipeline run never persists a photo record,
but objects uploaded before the failing stage are not removed (once the
main upload succeeded, any abort of the thumbnail path leaves the main
key in storage), and a color-extraction failure does not abort at all: it
degrades to an empty palette. -/
theorem pipeline_abort_behavior (img : ImageDims) (opts : ProcessOpts)
    (o : StageOracle) (palette : List (String × Nat))
    (mainKey thumbKey : String) :
    (∀ e : ProcessingError,
      (processAndUploadImage img opts o palette mainKey thumbKey).1 =
        Except.error e →
      photoRecordOf
        (processAndUploadImage img opts o palette mainKey thumbKey).1 =
        none) ∧
    (opts.generateThumbnail = true → o.metadataOk = true →
      o.resizeOk = true → o.mainUploadOk = true →
      (∃ e : ProcessingError,
        (processAndUploadImage img opts o palette mainKey thumbKey).1 =
          Except.error e) ∧
      mainKey ∈
        (processAndUploadImage img opts o palette mainKey thumbKey).2) ∧
    extractDominantColors false palette = [] := by
  refine ⟨?_, ?_, rfl⟩
  · intro e he
    rw [he]
    rfl
  · intro hg hm hr hu
    by_cases htr : o.thumbResizeOk = true
    · by_cases htu : o.thumbUploadOk = true
      · simp [processAndUploadImage, hg, hm, hr, hu, htr, htu]
      · simp [processAndUploadImage, hg, hm, hr, hu, htr, htu]
    · simp [processAndUploadImage, hg, hm, hr, hu, htr]

/-- Witness for the amended C8: a failed thumbnail resize yields no photo
record while the main object stays in storage. -/
theorem pipeline_abort_behavior_witness :
    photoRecordOf (processAndUploadImage { width := 4000, height := 3000 }
      {} { metadataOk := true, resizeOk := true, mainUploadOk := true,
           thumbResizeOk := false, thumbUploadOk := true, colorOk := true }
      [] "m.jpg" "t.jpg").1 = none ∧
    "m.jpg" ∈ (processAndUploadImage { width := 4000, height := 3000 }
      {} { metadataOk := true, resizeOk := true, mainUploadOk := true,
           thumbResizeOk := false, thumbUploadOk := true, colorOk := true }
      [] "m.jpg" "t.jpg").2 := by
  have h := pipeline_abort_behavior { width := 4000, height := 3000 } {}
    { metadataOk := true, resizeOk := true, mainUploadOk := true,
      thumbResizeOk := false, thumbUploadOk := true, colorOk := true }
    [] "m.jpg" "t.jpg"
  exact ⟨h.1 ProcessingError.thumbnailResizeFailed rfl,
    (h.2.1 rfl rfl rfl rfl).2⟩

/-! ## Claim C9: photo lifecycle and user stats -/

/-- Incrementing through findByIdAndUpdate changes the found user's
recorded stat by exactly the increment. -/
theorem statOf_inc (uid : Nat) (d : Int) :
    ∀ users : List StatsUser, ∀ u : StatsUser,
      users.find? (fun v => v.id == uid) = some u →
      statOf (incTotalPhotos users uid d) uid = statOf users uid + d := by
  intro users
  induction users with
  | nil => intro u h; cases h
  | cons x xs ih =>
    intro u h
    by_cases hx : (x.id == uid) = true
    · unfold incTotalPhotos statOf
      rw [List.map_cons, if_pos hx, List.find?_cons, List.find?_cons]
      simp only [hx]
    · have hxf : (x.id == uid) = false := Bool.eq_false_iff.mpr hx
      rw [List.find?_cons] at h
      simp only [hxf] at h
      simp only [statOf, incTotalPhotos, List.map_cons, List.find?_cons, hxf,
        if_false, Bool.false_eq_true]
      show statOf (incTotalPhotos xs uid d) uid = statOf xs uid + d
      exact ih u h

/-- C9 counterexample: the owner deletes their only photo through
DELETE /api/photos/:id; the document disappears, but the owner's
stats.totalPhotos stays at 1 (the claim requires 0) and the stored
objects stay in the bucket, because photo.deleteOne() does not fire the
pre-remove hook and the handler deletes nothing from storage. -/
theorem photos_route_delete_skips_hooks :
    deletePhotoPhotosRoute
      { users := [{ id := 7, totalPhotos := 1 }],
        photos := [{ id := 1, user := 7, publicId := "k.jpg" }],
        storage := ["k.jpg", "k_thumb.jpg"] } 1 7 =
      { users := [{ id := 7, totalPhotos := 1 }],
        photos := [],
        storage := ["k.jpg", "k_thumb.jpg"] } := rfl

/-- C9 amended: creating a photo increments the owner's
stats.totalPhotos by exactly 1; deletion through the upload route
(photo.remove()) decrements it by exactly 1 and removes the stored main
object; the photos-route delete, the admin delete and the cascade
deletes leave both the stats and the storage untouched. -/
theorem photo_stat_hooks (st : MediaState) (p q : PhotoDoc)
    (u : StatsUser) (id uid : Nat) :
    (st.users.find? (fun v => v.id == p.user) = some u →
      statOf (createPhoto st p).users p.user =
        statOf st.users p.user + 1) ∧
    (st.photos.find? (fun r => r.id == id) = some q →
      (q.user == uid) = true →
      st.users.find? (fun v => v.id == q.user) = some u →
      statOf (deletePhotoUploadRoute st id uid).users q.user =
        statOf st.users q.user - 1 ∧
      q.publicId ∉ (deletePhotoUploadRoute st id uid).storage) ∧
    ((deletePhotoPhotosRoute st id uid).users = st.users ∧
     (deletePhotoPhotosRoute st id uid).storage = st.storage) ∧
    ((adminDeletePhotoRoute st id).users = st.users ∧
     (adminDeletePhotoRoute st id).storage = st.storage) ∧
    ((cascadeDeleteUserPhotos st uid).users = st.users ∧
     (cascadeDeleteUserPhotos st uid).storage = st.storage) := by
  refine ⟨?_, ?_, ?_, ?_, ⟨rfl, rfl⟩⟩
  · intro hf
    exact statOf_inc p.user 1 st.users u hf
  · intro hfq hqu hfu
    have hred : deletePhotoUploadRoute st id uid =
        { users := incTotalPhotos st.users q.user (-1),
          photos := st.photos.filter (fun r => r.id != id),
          storage := st.storage.filter
            (fun k => k != q.publicId && k != thumbKeyOf q.publicId) } := by
      unfold deletePhotoUploadRoute
      rw [hfq]
      show (if (q.user == uid) = true then _ else st) = _
      rw [if_pos hqu]
    constructor
    · rw [hred]
      show statOf (incTotalPhotos st.users q.user (-1)) q.user =
        statOf st.users q.user - 1
      rw [statOf_inc q.user (-1) st.users u hfu]
      omega
    · rw [hred]
      intro hmem
      have hb := (List.mem_filter.mp hmem).2
      simp at hb
  · unfold deletePhotoPhotosRoute
    cases st.photos.find? (fun r => r.id == id) with
    | none => exact ⟨rfl, rfl⟩
    | some r =>
      by_cases hr : (r.user == uid) = true
      · simp [hr]
      · simp [hr]
  · unfold adminDeletePhotoRoute
    cases st.photos.find? (fun r => r.id == id) with
    | none => exact ⟨rfl, rfl⟩
    | some r => exact ⟨rfl, rfl⟩

/-- Witness for the amended C9: creating a photo takes the stat from 0 to
1 and the upload-route delete takes it from 1 back to 0. -/
theorem photo_stat_hooks_witness :
    statOf (createPhoto
      { users := [{ id := 7, totalPhotos := 0 }], photos := [],
        storage := [] }
      { id := 1, user := 7, publicId := "k.jpg" }).users 7 = 1 ∧
    statOf (deletePhotoUploadRoute
      { users := [{ id := 7, totalPhotos := 1 }],
        photos := [{ id := 1, user := 7, publicId := "k.jpg" }],
        storage := ["k.jpg", "k_thumb.jpg"] } 1 7).users 7 = 0 := by
  have h1 := photo_stat_hooks
    { users := [{ id := 7, totalPhotos := 0 }], photos := [], storage := [] }
    { id := 1, user := 7, publicId := "k.jpg" }
    { id := 1, user := 7, publicId := "k.jpg" }
    { id := 7, totalPhotos := 0 } 1 7
  have h2 := photo_stat_hooks
    { users := [{ id := 7, totalPhotos := 1 }],
      photos := [{ id := 1, user := 7, publicId := "k.jpg" }],
      storage := ["k.jpg", "k_thumb.jpg"] }
    { id := 1, user := 7, publicId := "k.jpg" }
    { id := 1, user := 7, publicId := "k.jpg" }
    { id := 7, totalPhotos := 1 } 1 7
  constructor
  · rw [h1.1 rfl]
    rfl
  · rw [(h2.2.1 rfl rfl rfl).1]
    rfl

end Lens
